import Mathlib

/-
Shallow embedding of the sqflite desktop plugin (package sqflite, plugin.go,
sqlcipher variant): session registry, command translation, batch execution,
row marshaling and the individual method-channel handlers.

Go dynamic values (interface{}) are modelled by the inductive `Value`;
a handler outcome (reply, err) together with the possibility of a runtime
panic from an unchecked type assertion is modelled by `GoRes`.
External collaborators (filesystem, SQL engine) are passed in as explicit
records of functions, and engine calls are logged in a `World` trace so that
statements about which operations were dispatched are expressible.
-/

/-- Go dynamic value (interface\x7b\x7d) as delivered by the standard method codec. -/
inductive Value where
  | nullV
  | boolV (b : Bool)
  | intV (n : Int)
  | strV (s : String)
  | bytesV (cs : List Char)
  | listV (vs : List Value)
  | mapV (m : List (String × Value))

/-- Outcome of a Go handler call: a reply, an error, or a runtime panic
coming from an unchecked single-value type assertion. -/
inductive GoRes (α : Type) where
  | ok (a : α)
  | err (msg : String)
  | panics
deriving DecidableEq

/-- First-match association-list lookup, modelling a Go map read m[k]. -/
def lookupA {α β : Type} [DecidableEq α] : List (α × β) → α → Option β
  | [], _ => none
  | (k', v) :: rest, k => if k' = k then some v else lookupA rest k

/-- Association-list update, modelling a Go map write m[k] = v. -/
def setA {α β : Type} [DecidableEq α] : List (α × β) → α → β → List (α × β)
  | [], k, v => [(k, v)]
  | (k', v') :: rest, k, v =>
    if k' = k then (k, v) :: rest else (k', v') :: setA rest k v

/-- Association-list removal, modelling Go delete(m, k). -/
def removeA {α β : Type} [DecidableEq α] : List (α × β) → α → List (α × β)
  | [], _ => []
  | (k', v) :: rest, k =>
    if k' = k then removeA rest k else (k', v) :: removeA rest k

/-- Go int32 wrap-around for the handle counter (p.databaseId is int32). -/
def wrap32 (n : Int) : Int := (n + 2 ^ 31) % 2 ^ 32 - 2 ^ 31

/-- State of the SqflitePlugin struct: the two registry maps and the
monotone int32 handle counter.  Connections are abstract tokens (Nat). -/
structure SqflitePlugin where
  databases : List (Int × Nat)
  databasePaths : List (Int × String)
  databaseId : Int

/-- Fresh plugin state as built by NewSqflitePlugin (empty maps, zero id). -/
def initPlugin : SqflitePlugin := ⟨[], [], 0⟩

/-- getSqlCommand: extracts (sql text, arguments) from a generic payload.
Faithful to the source: non-map arguments give "db not found"; a missing
"sql" key gives "SQL is not set"; a present non-string "sql" value is an
unchecked assertion (panic); an empty string gives "SQL is empty"; the
"arguments" field is coerced permissively (absent, null or non-list become
the empty argument list via the two-valued assertion). -/
def getSqlCommand (arguments : Value) : GoRes (String × List Value) :=
  match arguments with
  | .mapV args =>
    match lookupA args "sql" with
    | none => .err "SQL is not set"
    | some tsql =>
      match tsql with
      | .strV sqlStr =>
        if sqlStr = "" then .err "SQL is empty"
        else
          let xargs : List Value :=
            match lookupA args "arguments" with
            | none => []
            | some .nullV => []
            | some (.listV vs) => vs
            | some _ => []
          .ok (sqlStr, xargs)
      | _ => .panics
  | _ => .err "db not found"

/-- getDatabase: resolves the "id" field of a payload to a registry entry.
The id assertion is two-valued (error, not panic); a missing id or an
unknown handle give "invalid database". -/
def getDatabase (p : SqflitePlugin) (arguments : Value) : GoRes (Int × Nat) :=
  match arguments with
  | .mapV args =>
    match lookupA args "id" with
    | some dbId =>
      match dbId with
      | .intV id =>
        match lookupA p.databases id with
        | some db => .ok (id, db)
        | none => .err "invalid database"
      | _ => .err "Invaid db id"
    | none => .err "invalid database"
  | _ => .err "db not found"

/-- getDatabaseByPath: linear scan of databasePaths; the in-memory sentinel
never matches. -/
def findIdByPath : List (Int × String) → String → Option Int
  | [], _ => none
  | (id, pt) :: rest, dbPath =>
    if pt = dbPath then some id else findIdByPath rest dbPath

def getDatabaseByPath (p : SqflitePlugin) (dbPath : String) : Option Int :=
  if dbPath = ":memory:" then none
  else findIdByPath p.databasePaths dbPath

/-- Filesystem and driver collaborators of handleOpenDatabase.  mkdir models
os.MkdirAll(path.Dir dbpath, 0755) applied to the full requested path and
returns an error message on failure; openConn models sql.Open and yields a
fresh connection token or an error. -/
structure FS where
  mkdir : String → Option String
  openConn : String → Except String Nat

/-- Optional string field with Go zero-value default: present non-string
values hit an unchecked assertion (panic); absent keys leave "". -/
def strArgOr (args : List (String × Value)) (k : String) : GoRes String :=
  match lookupA args k with
  | some (.strV s) => .ok s
  | some _ => .panics
  | none => .ok ""

/-- Optional boolean field with Go zero-value default: present non-boolean
values hit an unchecked assertion (panic); absent keys leave false. -/
def boolArg (args : List (String × Value)) (k : String) : GoRes Bool :=
  match lookupA args k with
  | some (.boolV b) => .ok b
  | some _ => .panics
  | none => .ok false

/-- Split of a character list at every occurrence of a separator character,
modelling strings.Split for a one-character separator. -/
def splitOnChar (c : Char) : List Char → List (List Char)
  | [] => [[]]
  | d :: ds =>
    if d = c then [] :: splitOnChar c ds
    else
      match splitOnChar c ds with
      | [] => [[d]]
      | r :: rs => (d :: r) :: rs

/-- strings.Split of a string at a one-character separator. -/
def goSplit (s : String) (c : Char) : List String :=
  (splitOnChar c s.toList).map String.mk

/-- listStartsWith s pat: pat is a prefix of s (strings.Index s pat == 0). -/
def listStartsWith : List Char → List Char → Bool
  | _, [] => true
  | [], _ :: _ => false
  | c :: cs, d :: ds => c = d && listStartsWith cs ds

/-- Search of the "?"-suffix parameter chunks for a non-empty _key value:
the first chunk starting with "_key=" decides (the source loop breaks). -/
def findKey : List String → Bool
  | [] => false
  | v :: rest =>
    if listStartsWith v.toList "_key=".toList then decide (v.toList.length > 5)
    else findKey rest

/-- handleOpenDatabase, faithful to the source: requires a map payload, a
non-empty string path that splits on "?" into exactly two chunks whose
second chunk carries a non-empty _key parameter; reads readOnly and
singleInstance (unchecked bool assertions); creates parent directories for
non-sentinel paths; recovers an existing handle when singleInstance holds
and the path is already registered; otherwise opens a connection, bumps the
int32 handle counter and stores the entry. -/
def handleOpenDatabase (fs : FS) (p : SqflitePlugin) (arguments : Value) :
    GoRes Value × SqflitePlugin :=
  match arguments with
  | .mapV args =>
    (match strArgOr args "path" with
     | .panics => (.panics, p)
     | .err e => (.err e, p)
     | .ok dbpath =>
       if dbpath = "" then (.err "dbpath is empty", p)
       else
         if (goSplit dbpath '?').length ≠ 2 then (.err "db parameters are missing", p)
         else
           if findKey (goSplit ((goSplit dbpath '?').getD 1 "") '&') then
             match boolArg args "readOnly" with
             | .panics => (.panics, p)
             | .err e => (.err e, p)
             | .ok _readOnly =>
               match boolArg args "singleInstance" with
               | .panics => (.panics, p)
               | .err e => (.err e, p)
               | .ok si0 =>
                 match (if dbpath == ":memory:" then none else fs.mkdir dbpath) with
                 | some e => (.err e, p)
                 | none =>
                   match (if si0 && !(dbpath == ":memory:")
                          then getDatabaseByPath p dbpath else none) with
                   | some dbId =>
                     (.ok (.mapV [("id", .intV dbId), ("recovered", .boolV true)]), p)
                   | none =>
                     match fs.openConn dbpath with
                     | .error e => (.err e, p)
                     | .ok conn =>
                       let newId := wrap32 (p.databaseId + 1)
                       (.ok (.mapV [("id", .intV newId), ("recovered", .boolV false)]),
                        { p with
                          databaseId := newId,
                          databases := setA p.databases newId conn,
                          databasePaths := setA p.databasePaths newId dbpath })
           else (.err "db key is missing", p))
  | _ => (.err "invalid arguments", p)

/-- handleCloseDatabase: resolves the handle, closes the connection (close
outcome supplied by closeRes), removes both registry entries regardless of
the close outcome, and propagates the close error. -/
def handleCloseDatabase (closeRes : Nat → Option String) (p : SqflitePlugin)
    (arguments : Value) : GoRes Value × SqflitePlugin :=
  match getDatabase p arguments with
  | .err e => (.err e, p)
  | .panics => (.panics, p)
  | .ok (id, db) =>
    let p' : SqflitePlugin :=
      { p with
        databases := removeA p.databases id,
        databasePaths := removeA p.databasePaths id }
    match closeRes db with
    | some e => (.err e, p')
    | none => (.ok .nullV, p')

/-- Result cursor of the underlying engine as the source loop observes it:
colsRes models rows.Columns() (whose error the source does check); scans is
the per-iteration outcome of rows.Scan for each row the loop visits, in
order (the source assigns this error and never checks it); iterErr models
what rows.Err() would report after the loop — the source never calls it. -/
structure Cursor where
  colsRes : Except String (List String)
  scans : List (Except String (List Value))
  iterErr : Option String

/-- Behaviour of one open connection of the underlying engine: execRes
models db.Exec (last-insert id and rows-affected on success, or an error),
queryRes models db.Query. -/
structure Engine where
  execRes : String → List Value → Except String (Int × Int)
  queryRes : String → List Value → Except String Cursor

/-- Trace of the calls dispatched to the engine, in dispatch order. -/
abbrev World := List (String × List Value)

/-- One iteration of the handleBatch loop body: the operation must be a map
with a string method; translation failures and panics abort;
update/insert/execute dispatch db.Exec and query dispatches db.Query, each
call being appended to the trace; an engine error aborts with that error,
success yields the extended trace. -/
def runBatchOp (eng : Engine) (op : Value) (w : World) : GoRes Unit × World :=
  match op with
  | .mapV params =>
    (match lookupA params "method" with
     | none => (.err "empty method", w)
     | some mtd =>
       match mtd with
       | .strV method =>
         (match getSqlCommand op with
          | .err e => (.err e, w)
          | .panics => (.panics, w)
          | .ok (sqlStr, xargs) =>
            if method = "update" ∨ method = "insert" ∨ method = "execute" then
              match eng.execRes sqlStr xargs with
              | .error e => (.err e, w ++ [(sqlStr, xargs)])
              | .ok _ => (.ok (), w ++ [(sqlStr, xargs)])
            else if method = "query" then
              match eng.queryRes sqlStr xargs with
              | .error e => (.err e, w ++ [(sqlStr, xargs)])
              | .ok _ => (.ok (), w ++ [(sqlStr, xargs)])
            else (.err "Invalid batch param", w))
       | _ => (.err "invalid method", w))
  | _ => (.err "invalid operations data format: a list of maps is expected", w)

/-- The per-operation loop of handleBatch: operations run strictly in order
and the first aborting outcome stops the loop. -/
def runBatchOps (eng : Engine) : List Value → World → GoRes Unit × World
  | [], w => (.ok (), w)
  | op :: rest, w =>
    match runBatchOp eng op w with
    | (.ok _, w') => runBatchOps eng rest w'
    | (.err e, w') => (.err e, w')
    | (.panics, w') => (.panics, w')

/-- handleBatch: resolves the handle, requires an "operations" list, runs
the operations strictly in order and, on success, replies nil — the source
reads neither noResult nor continueOnError and accumulates no results. -/
def handleBatch (eng : Engine) (p : SqflitePlugin) (arguments : Value)
    (w : World) : GoRes Value × World :=
  match getDatabase p arguments with
  | .err e => (.err e, w)
  | .panics => (.panics, w)
  | .ok _ =>
    match arguments with
    | .mapV args =>
      (match lookupA args "operations" with
       | none => (.err "invalid operation", w)
       | some iops =>
         match iops with
         | .listV operations =>
           (match runBatchOps eng operations w with
            | (.ok _, w') => (.ok .nullV, w')
            | (.err e, w') => (.err e, w')
            | (.panics, w') => (.panics, w'))
         | _ => (.err "invalid operations data format: a list is expected", w))
    | _ => (.err "invalid args", w)

/-- Substring test on character lists, modelling strings.Contains. -/
def listContainsSub : List Char → List Char → Bool
  | [], pat => pat.isEmpty
  | c :: cs, pat => listStartsWith (c :: cs) pat || listContainsSub cs pat

def containsSub (s pat : String) : Bool := listContainsSub s.toList pat.toList

/-- handleExecute: resolves handle and SQL, dispatches db.Exec, and returns
nil on success — but an engine error whose message contains "already exists"
is treated as success and dropped. -/
def handleExecute (eng : Engine) (p : SqflitePlugin) (arguments : Value)
    (w : World) : GoRes Value × World :=
  match getDatabase p arguments with
  | .err e => (.err e, w)
  | .panics => (.panics, w)
  | .ok _ =>
    match getSqlCommand arguments with
    | .err e => (.err e, w)
    | .panics => (.panics, w)
    | .ok (sqlStr, xargs) =>
      let w' := w ++ [(sqlStr, xargs)]
      match eng.execRes sqlStr xargs with
      | .error e =>
        if containsSub e "already exists" then (.ok .nullV, w') else (.err e, w')
      | .ok _ => (.ok .nullV, w')

/-- handleInsert: dispatches db.Exec and replies with the last-insert id. -/
def handleInsert (eng : Engine) (p : SqflitePlugin) (arguments : Value)
    (w : World) : GoRes Value × World :=
  match getDatabase p arguments with
  | .err e => (.err e, w)
  | .panics => (.panics, w)
  | .ok _ =>
    match getSqlCommand arguments with
    | .err e => (.err e, w)
    | .panics => (.panics, w)
    | .ok (sqlStr, xargs) =>
      let w' := w ++ [(sqlStr, xargs)]
      match eng.execRes sqlStr xargs with
      | .error e => (.err e, w')
      | .ok r => (.ok (.intV r.1), w')

/-- handleUpdate: dispatches db.Exec and replies with the affected count. -/
def handleUpdate (eng : Engine) (p : SqflitePlugin) (arguments : Value)
    (w : World) : GoRes Value × World :=
  match getDatabase p arguments with
  | .err e => (.err e, w)
  | .panics => (.panics, w)
  | .ok _ =>
    match getSqlCommand arguments with
    | .err e => (.err e, w)
    | .panics => (.panics, w)
    | .ok (sqlStr, xargs) =>
      let w' := w ++ [(sqlStr, xargs)]
      match eng.execRes sqlStr xargs with
      | .error e => (.err e, w')
      | .ok r => (.ok (.intV r.2), w')

/-- Per-value coercion of the row marshaler: a blob becomes the string of
its bytes; every other value (null included) passes through unchanged. -/
def coerceValue : Value → Value
  | .bytesV cs => .strV (String.mk cs)
  | v => v

/-- One iteration of the source's row loop: on a successful rows.Scan the
scanned values are coerced in order; on a failed rows.Scan the source
assigns err = rows.Scan(dest...) and never checks it, so the loop appends
the untouched destination slots — one freshly initialized nil interface per
column, i.e. a row of nulls — and the error is silently dropped. -/
def marshalRow (cols : List String) : Except String (List Value) → List Value
  | .ok row => row.map coerceValue
  | .error _ => List.replicate cols.length Value.nullV

/-- handleQuery: resolves handle and SQL, dispatches db.Query, checks the
rows.Columns() error, then marshals every visited row into the generic
\x7bcolumns, rows\x7d map, coercing each value and preserving column order
and row order; per-row scan errors are dropped (see marshalRow) and the
cursor's final iteration error (rows.Err()) is never consulted — the
function replies success regardless of either. -/
def handleQuery (eng : Engine) (p : SqflitePlugin) (arguments : Value)
    (w : World) : GoRes Value × World :=
  match getDatabase p arguments with
  | .err e => (.err e, w)
  | .panics => (.panics, w)
  | .ok _ =>
    match getSqlCommand arguments with
    | .err e => (.err e, w)
    | .panics => (.panics, w)
    | .ok (sqlStr, xargs) =>
      let w' := w ++ [(sqlStr, xargs)]
      match eng.queryRes sqlStr xargs with
      | .error e => (.err e, w')
      | .ok cur =>
        match cur.colsRes with
        | .error e => (.err e, w')
        | .ok cols =>
          (.ok (.mapV
            [("columns", .listV (cols.map Value.strV)),
             ("rows", .listV (cur.scans.map
               (fun sc => .listV (marshalRow cols sc))))]), w')

/-- A registry call of one process lifetime: openDatabase or closeDatabase,
each carrying its external collaborators and its payload. -/
inductive RegCall where
  | copen (fs : FS) (args : Value)
  | cclose (closeRes : Nat → Option String) (args : Value)

/-- Dispatch one registry call against the current plugin state. -/
def stepCall (p : SqflitePlugin) : RegCall → GoRes Value × SqflitePlugin
  | .copen fs args => handleOpenDatabase fs p args
  | .cclose closeRes args => handleCloseDatabase closeRes p args

/-- The handle allocated by a reply, when the reply is a fresh (non-recovered)
open result. -/
def allocOf : GoRes Value → Option Int
  | .ok (.mapV [("id", .intV i), ("recovered", .boolV false)]) => some i
  | _ => none

/-- Run a sequence of registry calls, returning the final state and the
handles allocated by entry-creating opens, in allocation order. -/
def runCalls (p : SqflitePlugin) : List RegCall → SqflitePlugin × List Int
  | [] => (p, [])
  | c :: cs =>
    let r := stepCall p c
    let rest := runCalls r.2 cs
    (rest.1, (allocOf r.1).toList ++ rest.2)

/-- Collaborators for which directory creation and connection opening always
succeed. -/
def fsAllOk : FS := ⟨fun _ => none, fun _ => .ok 0⟩

/-- A well-formed open payload (path with a non-empty _key parameter, no
singleInstance flag) whose open always creates a fresh entry. -/
def goodOpen : RegCall := .copen fsAllOk (.mapV [("path", .strV "a.db?_key=k")])

/-- A one-entry registry state: handle 1 open on "a.db?_key=k". -/
def pOne : SqflitePlugin := ⟨[(1, 0)], [(1, "a.db?_key=k")], 1⟩

/-- Engine that fails executions of the statement "BAD" with message "boom"
and succeeds on everything else. -/
def engBad : Engine :=
  ⟨fun s _ => if s = "BAD" then .error "boom" else .ok (1, 1),
   fun s _ => if s = "QBAD" then .error "qboom" else .ok ⟨.ok [], [], none⟩⟩

/-- Engine whose executions always fail with an "already exists" message. -/
def engAlreadyExists : Engine :=
  ⟨fun _ _ => .error "table t already exists", fun _ _ => .ok ⟨.ok [], [], none⟩⟩

/-- A batch operation payload with the given method and statement. -/
def batchOp (method sqlStr : String) : Value :=
  .mapV [("method", .strV method), ("sql", .strV sqlStr)]

/-- A batch payload over handle 1 with the given flags and operations. -/
def batchArgs (noResult continueOnError : Bool) (ops : List Value) : Value :=
  .mapV [("id", .intV 1), ("operations", .listV ops),
         ("noResult", .boolV noResult), ("continueOnError", .boolV continueOnError)]

/-- A single-statement payload over handle 1. -/
def sqlArgs (sqlStr : String) : Value :=
  .mapV [("id", .intV 1), ("sql", .strV sqlStr)]

/-- A sample three-column cursor with an integer, a null and a blob. -/
def curSample : Cursor :=
  ⟨.ok ["v", "n", "b"], [.ok [.intV 42, .nullV, .bytesV ['h', 'i']]], none⟩

/-- Engine whose queries return the sample cursor. -/
def engQuery : Engine := ⟨fun _ _ => .ok (1, 1), fun _ _ => .ok curSample⟩

/-- Engine whose query call succeeds but whose single row fails rows.Scan
and whose final iteration reports an error — both of which the source
silently drops. -/
def engScanFail : Engine :=
  ⟨fun _ _ => .ok (1, 1),
   fun _ _ => .ok ⟨.ok ["v"], [.error "scan failed"], some "iteration failed"⟩⟩

/-
Helper lemmas.
-/

/-- Reading a key after deleting it always misses. -/
theorem lookupA_removeA {α β : Type} [DecidableEq α]
    (m : List (α × β)) (k : α) : lookupA (removeA m k) k = none := by
  induction m with
  | nil => rfl
  | cons hd tl ih =>
    obtain ⟨k', v⟩ := hd
    by_cases h : k' = k
    · simp [removeA, h, ih]
    · simp [removeA, lookupA, h, ih]

/-- wrap32 is the identity inside the int32 range. -/
theorem wrap32_eq_of_bounds (n : Int) (h0 : -(2 ^ 31) ≤ n) (h1 : n ≤ 2 ^ 31 - 1) :
    wrap32 n = n := by
  unfold wrap32
  omega

/-- wrap32 absorbs an already wrapped left summand. -/
theorem wrap32_add_left (x y : Int) : wrap32 (wrap32 x + y) = wrap32 (x + y) := by
  unfold wrap32
  omega

/-- Running a concatenation of batch operation lists runs the first list and,
if it completed, continues with the second from the reached trace. -/
theorem runBatchOps_append (eng : Engine) (l1 l2 : List Value) (w : World) :
    runBatchOps eng (l1 ++ l2) w =
      match runBatchOps eng l1 w with
      | (.ok _, w1) => runBatchOps eng l2 w1
      | (.err e, w1) => (.err e, w1)
      | (.panics, w1) => (.panics, w1) := by
  induction l1 generalizing w with
  | nil => rfl
  | cons op rest ih =>
    show runBatchOps eng (op :: (rest ++ l2)) w = _
    rw [runBatchOps, runBatchOps]
    rcases h : runBatchOp eng op w with ⟨r, w'⟩
    cases r with
    | ok a => exact ih w'
    | err e => rfl
    | panics => rfl

/-
Claim theorems.
-/

/-- C8: getSqlCommand fails with "SQL is not set" when the sql field is
absent and "SQL is empty" when it is present but blank; an absent, null or
non-list arguments field silently defaults to the empty parameter list,
while a list is passed through verbatim in order. -/
theorem getSqlCommand_spec (m : List (String × Value)) :
    (lookupA m "sql" = none → getSqlCommand (.mapV m) = .err "SQL is not set") ∧
    (lookupA m "sql" = some (.strV "") → getSqlCommand (.mapV m) = .err "SQL is empty") ∧
    (∀ s : String, s ≠ "" → lookupA m "sql" = some (.strV s) →
      (lookupA m "arguments" = none → getSqlCommand (.mapV m) = .ok (s, [])) ∧
      (lookupA m "arguments" = some .nullV → getSqlCommand (.mapV m) = .ok (s, [])) ∧
      (∀ v, lookupA m "arguments" = some v → v ≠ .nullV → (∀ vs, v ≠ .listV vs) →
        getSqlCommand (.mapV m) = .ok (s, [])) ∧
      (∀ vs, lookupA m "arguments" = some (.listV vs) →
        getSqlCommand (.mapV m) = .ok (s, vs))) := by
  refine ⟨fun h => by simp [getSqlCommand, h], fun h => by simp [getSqlCommand, h],
    fun s hs hsql => ⟨fun h => by simp [getSqlCommand, hsql, hs, h],
      fun h => by simp [getSqlCommand, hsql, hs, h],
      fun v hv hvn hvl => ?_,
      fun vs h => by simp [getSqlCommand, hsql, hs, h]⟩⟩
  cases v with
  | nullV => exact absurd rfl hvn
  | listV vs => exact absurd rfl (hvl vs)
  | boolV b => simp [getSqlCommand, hsql, hs, hv]
  | intV n => simp [getSqlCommand, hsql, hs, hv]
  | strV t => simp [getSqlCommand, hsql, hs, hv]
  | bytesV cs => simp [getSqlCommand, hsql, hs, hv]
  | mapV mm => simp [getSqlCommand, hsql, hs, hv]

/-- Witness for C8 at concrete payloads: missing sql, blank sql, a verbatim
list of parameters and a non-list parameters field. -/
theorem getSqlCommand_spec_witness :
    getSqlCommand (.mapV [("id", .intV 1)]) = .err "SQL is not set" ∧
    getSqlCommand (.mapV [("sql", .strV "")]) = .err "SQL is empty" ∧
    getSqlCommand (.mapV [("sql", .strV "SELECT 1"), ("arguments", .listV [.intV 7])])
      = .ok ("SELECT 1", [.intV 7]) ∧
    getSqlCommand (.mapV [("sql", .strV "SELECT 1"), ("arguments", .strV "x")])
      = .ok ("SELECT 1", []) := by
  refine ⟨(getSqlCommand_spec [("id", .intV 1)]).1 rfl,
    (getSqlCommand_spec [("sql", .strV "")]).2.1 rfl,
    ((getSqlCommand_spec [("sql", .strV "SELECT 1"), ("arguments", .listV [.intV 7])]).2.2
      "SELECT 1" (by decide) rfl).2.2.2 [.intV 7] rfl,
    ((getSqlCommand_spec [("sql", .strV "SELECT 1"), ("arguments", .strV "x")]).2.2
      "SELECT 1" (by decide) rfl).2.2.1 (.strV "x") rfl
      (by intro h; cases h) (by intro vs h; cases h)⟩

/-- C10: payloads whose sql field, path field or open flags are present with
an unexpected dynamic type make the handlers hit an unchecked type assertion
and panic instead of returning a structured failure. -/
theorem handlers_panic_on_ill_typed_fields :
    getSqlCommand (.mapV [("sql", .intV 3)]) = .panics ∧
    (handleOpenDatabase fsAllOk initPlugin (.mapV [("path", .intV 3)])).1 = .panics ∧
    (handleOpenDatabase fsAllOk initPlugin
      (.mapV [("path", .strV "a.db?_key=k"), ("readOnly", .intV 1)])).1 = .panics ∧
    (handleOpenDatabase fsAllOk initPlugin
      (.mapV [("path", .strV "a.db?_key=k"), ("singleInstance", .strV "yes")])).1
      = .panics := by
  exact ⟨rfl, rfl, rfl, rfl⟩

/-- C6: closing an unknown handle fails with the invalid-handle error and
leaves the state unchanged; closing a known handle removes the registry
entry even when the underlying close reports failure (whose error is
propagated), and a subsequent getDatabase on that handle fails with the
invalid-handle error. -/
theorem close_removes_entry_and_get_fails (closeRes : Nat → Option String)
    (p : SqflitePlugin) (i : Int) :
    (lookupA p.databases i = none →
      handleCloseDatabase closeRes p (.mapV [("id", .intV i)])
        = (.err "invalid database", p)) ∧
    (∀ db, lookupA p.databases i = some db →
      (handleCloseDatabase closeRes p (.mapV [("id", .intV i)])).2.databases
          = removeA p.databases i ∧
      (handleCloseDatabase closeRes p (.mapV [("id", .intV i)])).1
          = (match closeRes db with
             | some e => GoRes.err e
             | none => GoRes.ok Value.nullV) ∧
      getDatabase (handleCloseDatabase closeRes p (.mapV [("id", .intV i)])).2
          (.mapV [("id", .intV i)]) = .err "invalid database") := by
  constructor
  · intro h
    simp [handleCloseDatabase, getDatabase, lookupA, h]
  · intro db h
    rcases hc : closeRes db with _ | e <;>
      simp [handleCloseDatabase, getDatabase, lookupA, h, hc, lookupA_removeA]

/-- Witness for C6: closing handle 1 of a one-entry registry with a failing
underlying close still removes the entry, propagates the close error, and a
subsequent getDatabase on handle 1 fails. -/
theorem close_removes_entry_and_get_fails_witness :
    (handleCloseDatabase (fun _ => some "close failed") pOne
        (.mapV [("id", .intV 1)])).1 = .err "close failed" ∧
    (handleCloseDatabase (fun _ => some "close failed") pOne
        (.mapV [("id", .intV 1)])).2.databases = [] ∧
    getDatabase (handleCloseDatabase (fun _ => some "close failed") pOne
        (.mapV [("id", .intV 1)])).2 (.mapV [("id", .intV 1)])
      = .err "invalid database" := by
  have h := (close_removes_entry_and_get_fails (fun _ => some "close failed") pOne 1).2
    0 rfl
  exact ⟨h.2.1, h.1, h.2.2⟩

/-- C1 (amended): when an operation of a well-formed batch — whichever of
the four methods it uses — fails at execution (db.Exec for
update/insert/execute, db.Query for query), handleBatch aborts immediately
with that error as a top-level failure even when continueOnError is present
and true; no error-envelope entry is produced and the operations after the
failing one are never dispatched (the trace stops right after the failing
call). -/
theorem batch_aborts_on_first_failure
    (eng : Engine) (p : SqflitePlugin) (i : Int) (db : Nat)
    (m fm : List (String × Value)) (ops1 ops2 : List Value)
    (w w1 : World) (s : String) (a : List Value) (msg method : String)
    (hid : lookupA m "id" = some (.intV i))
    (hdb : lookupA p.databases i = some db)
    (hops : lookupA m "operations" = some (.listV (ops1 ++ Value.mapV fm :: ops2)))
    (hco : lookupA m "continueOnError" = some (.boolV true))
    (h1 : runBatchOps eng ops1 w = (.ok (), w1))
    (hm : lookupA fm "method" = some (.strV method))
    (hsql : getSqlCommand (.mapV fm) = .ok (s, a))
    (hfail : ((method = "update" ∨ method = "insert" ∨ method = "execute") ∧
        eng.execRes s a = .error msg) ∨
      (method = "query" ∧ eng.queryRes s a = .error msg)) :
    handleBatch eng p (.mapV m) w = (.err msg, w1 ++ [(s, a)]) := by
  have hstep : runBatchOps eng (ops1 ++ Value.mapV fm :: ops2) w
      = (.err msg, w1 ++ [(s, a)]) := by
    rw [runBatchOps_append, h1]
    show runBatchOps eng (Value.mapV fm :: ops2) w1 = _
    rcases hfail with ⟨hmeth, hexec⟩ | ⟨hmeth, hquery⟩
    · have hif : (method = "update" ∨ method = "insert" ∨ method = "execute")
          = True := by simp [hmeth]
      simp [runBatchOps, runBatchOp, hm, hsql, hif, hexec]
    · subst hmeth
      simp [runBatchOps, runBatchOp, hm, hsql, hquery]
  simp [handleBatch, getDatabase, hid, hdb, hops, hstep]

/-- Witness for C1 (amended): a three-operation batch over handle 1 whose
second operation fails aborts with the engine error after dispatching only
the first two calls, although continueOnError is true — both for a failing
execute operation and for a failing query operation. -/
theorem batch_aborts_on_first_failure_witness :
    handleBatch engBad pOne
        (batchArgs false true [batchOp "execute" "G1", batchOp "execute" "BAD",
          batchOp "execute" "G2"]) []
      = (.err "boom", [("G1", []), ("BAD", [])]) ∧
    handleBatch engBad pOne
        (batchArgs false true [batchOp "insert" "G1", batchOp "query" "QBAD",
          batchOp "execute" "G2"]) []
      = (.err "qboom", [("G1", []), ("QBAD", [])]) := by
  constructor
  · exact batch_aborts_on_first_failure engBad pOne 1 0 _ _
      [batchOp "execute" "G1"] [batchOp "execute" "G2"] [] [("G1", [])]
      "BAD" [] "boom" "execute" rfl rfl rfl rfl rfl rfl rfl
      (Or.inl ⟨by tauto, rfl⟩)
  · exact batch_aborts_on_first_failure engBad pOne 1 0 _ _
      [batchOp "insert" "G1"] [batchOp "execute" "G2"] [] [("G1", [])]
      "QBAD" [] "qboom" "query" rfl rfl rfl rfl rfl rfl rfl
      (Or.inr ⟨rfl, rfl⟩)

/-- Counterexample to C1 as stated: in a well-formed batch with
continueOnError set to true, the failure of the second operation makes the
whole batch call fail at top level; no error-envelope result entry is
returned, and the third operation is never executed (the engine trace ends
at the failing call). -/
theorem batch_continueOnError_ignored_cex :
    handleBatch engBad pOne
        (batchArgs false true [batchOp "execute" "G1", batchOp "execute" "BAD",
          batchOp "execute" "G3"]) []
      = (.err "boom", [("G1", []), ("BAD", [])]) ∧
    (handleBatch engBad pOne
        (batchArgs false true [batchOp "execute" "G1", batchOp "execute" "BAD",
          batchOp "execute" "G3"]) []).1 ≠ .ok (.listV [.mapV [("result",
            .mapV [("code", .strV "sqlite_error"), ("message", .strV "boom")])]]) := by
  refine ⟨rfl, ?_⟩
  intro h
  have h1 : GoRes.err "boom" = GoRes.ok (Value.listV [.mapV [("result",
      .mapV [("code", .strV "sqlite_error"), ("message", .strV "boom")])]]) := h
  cases h1

/-- C2 (amended): a well-formed batch whose operations all execute
successfully replies nil — no accumulated results sequence is ever built,
whatever the value of the noResult flag; all operations are dispatched in
order. -/
theorem batch_success_returns_nil
    (eng : Engine) (p : SqflitePlugin) (i : Int) (db : Nat)
    (m : List (String × Value)) (ops : List Value) (w w' : World) (b : Bool)
    (hid : lookupA m "id" = some (.intV i))
    (hdb : lookupA p.databases i = some db)
    (hops : lookupA m "operations" = some (.listV ops))
    (hnr : lookupA m "noResult" = some (.boolV b))
    (hok : runBatchOps eng ops w = (.ok (), w')) :
    handleBatch eng p (.mapV m) w = (.ok .nullV, w') := by
  simp [handleBatch, getDatabase, hid, hdb, hops, hok]

/-- Witness for C2 (amended): a successful two-operation batch over handle 1
with noResult false replies nil with both calls dispatched in order. -/
theorem batch_success_returns_nil_witness :
    handleBatch engBad pOne
        (batchArgs false false [batchOp "insert" "G1", batchOp "query" "G2"]) []
      = (.ok .nullV, [("G1", []), ("G2", [])]) := by
  exact batch_success_returns_nil engBad pOne 1 0 _
    [batchOp "insert" "G1", batchOp "query" "G2"] [] [("G1", []), ("G2", [])]
    false rfl rfl rfl rfl rfl

/-- Counterexample to C2 as stated: a batch with suppressResults false whose
two operations both succeed replies nil rather than a sequence of
success wrappers, and with suppressResults true the reply is the same. -/
theorem batch_returns_no_results_cex :
    handleBatch engBad pOne
        (batchArgs false false [batchOp "insert" "A1", batchOp "execute" "A2"]) []
      = (.ok .nullV, [("A1", []), ("A2", [])]) ∧
    (handleBatch engBad pOne
        (batchArgs false false [batchOp "insert" "A1", batchOp "execute" "A2"]) []).1
      ≠ .ok (.listV [.mapV [("result", .intV 1)], .mapV [("result", .nullV)]]) ∧
    handleBatch engBad pOne
        (batchArgs true false [batchOp "insert" "A1", batchOp "execute" "A2"]) []
      = (.ok .nullV, [("A1", []), ("A2", [])]) := by
  refine ⟨rfl, ?_, rfl⟩
  intro h
  have h1 : GoRes.ok Value.nullV = GoRes.ok (Value.listV [.mapV [("result", .intV 1)],
      .mapV [("result", .nullV)]]) := h
  have h2 : Value.nullV = Value.listV [.mapV [("result", .intV 1)],
      .mapV [("result", .nullV)]] := by injection h1
  cases h2

/-- Branch analysis of handleOpenDatabase for a well-formed payload: a path
that is a non-empty string, splits on "?" into exactly two chunks with a
non-empty _key parameter, is not the in-memory sentinel, and whose flag
fields are well-typed.  Directory-creation failure is surfaced; otherwise a
single-instance hit recovers the registered handle without touching the
state; otherwise a connection-open failure is surfaced; otherwise a fresh
handle is allocated and the entry stored. -/
theorem openDatabase_branches
    (fs : FS) (p : SqflitePlugin) (args : List (String × Value))
    (dbpath c0 c1 : String) (si0 ro : Bool)
    (hpath : lookupA args "path" = some (.strV dbpath))
    (hne : dbpath ≠ "")
    (hsplit : goSplit dbpath '?' = [c0, c1])
    (hkey : findKey (goSplit c1 '&') = true)
    (hro : boolArg args "readOnly" = .ok ro)
    (hsi : boolArg args "singleInstance" = .ok si0)
    (hmem : dbpath ≠ ":memory:") :
    (∀ e, fs.mkdir dbpath = some e →
      handleOpenDatabase fs p (.mapV args) = (.err e, p)) ∧
    (∀ i, fs.mkdir dbpath = none → si0 = true → getDatabaseByPath p dbpath = some i →
      handleOpenDatabase fs p (.mapV args)
        = (.ok (.mapV [("id", .intV i), ("recovered", .boolV true)]), p)) ∧
    (∀ e, fs.mkdir dbpath = none → (si0 = true → getDatabaseByPath p dbpath = none) →
      fs.openConn dbpath = .error e →
      handleOpenDatabase fs p (.mapV args) = (.err e, p)) ∧
    (∀ conn, fs.mkdir dbpath = none → (si0 = true → getDatabaseByPath p dbpath = none) →
      fs.openConn dbpath = .ok conn →
      handleOpenDatabase fs p (.mapV args)
        = (.ok (.mapV [("id", .intV (wrap32 (p.databaseId + 1))),
                       ("recovered", .boolV false)]),
           { p with
             databaseId := wrap32 (p.databaseId + 1),
             databases := setA p.databases (wrap32 (p.databaseId + 1)) conn,
             databasePaths := setA p.databasePaths (wrap32 (p.databaseId + 1)) dbpath })) := by
  have hbeq : (dbpath == ":memory:") = false := by
    exact beq_eq_false_iff_ne.mpr hmem
  refine ⟨?_, ?_, ?_, ?_⟩
  · intro e hmk
    simp [handleOpenDatabase, strArgOr, hpath, hne, hsplit, hkey, hro, hsi, hbeq, hmk]
  · intro i hmk hsitrue hfound
    subst hsitrue
    simp [handleOpenDatabase, strArgOr, hpath, hne, hsplit, hkey, hro, hsi, hbeq, hmk,
      hfound]
  · intro e hmk hnofind hconn
    cases si0 with
    | false =>
      simp [handleOpenDatabase, strArgOr, hpath, hne, hsplit, hkey, hro, hsi, hbeq, hmk,
        hconn]
    | true =>
      simp [handleOpenDatabase, strArgOr, hpath, hne, hsplit, hkey, hro, hsi, hbeq, hmk,
        hnofind rfl, hconn]
  · intro conn hmk hnofind hconn
    cases si0 with
    | false =>
      simp [handleOpenDatabase, strArgOr, hpath, hne, hsplit, hkey, hro, hsi, hbeq, hmk,
        hconn]
    | true =>
      simp [handleOpenDatabase, strArgOr, hpath, hne, hsplit, hkey, hro, hsi, hbeq, hmk,
        hnofind rfl, hconn]

/-- C3 (amended): openDatabase additionally requires the path to carry a
"?"-separated parameter section with a non-empty _key parameter; for such a
non-sentinel path with well-typed flags and no single-instance hit it
creates the parent directories, opens a connection, allocates the next
int32 handle, stores the entry and replies with that id and recovered
false; it fails exactly when directory creation or connection open fails.
A plain parameterless path such as "notes.db" is rejected before any of
this happens. -/
theorem open_with_key_params
    (fs : FS) (p : SqflitePlugin) (args : List (String × Value))
    (dbpath c0 c1 : String) (si0 ro : Bool)
    (hpath : lookupA args "path" = some (.strV dbpath))
    (hne : dbpath ≠ "")
    (hsplit : goSplit dbpath '?' = [c0, c1])
    (hkey : findKey (goSplit c1 '&') = true)
    (hro : boolArg args "readOnly" = .ok ro)
    (hsi : boolArg args "singleInstance" = .ok si0)
    (hmem : dbpath ≠ ":memory:")
    (hnofind : si0 = true → getDatabaseByPath p dbpath = none) :
    (∀ e, fs.mkdir dbpath = some e →
      handleOpenDatabase fs p (.mapV args) = (.err e, p)) ∧
    (∀ e, fs.mkdir dbpath = none → fs.openConn dbpath = .error e →
      handleOpenDatabase fs p (.mapV args) = (.err e, p)) ∧
    (∀ conn, fs.mkdir dbpath = none → fs.openConn dbpath = .ok conn →
      handleOpenDatabase fs p (.mapV args)
        = (.ok (.mapV [("id", .intV (wrap32 (p.databaseId + 1))),
                       ("recovered", .boolV false)]),
           { p with
             databaseId := wrap32 (p.databaseId + 1),
             databases := setA p.databases (wrap32 (p.databaseId + 1)) conn,
             databasePaths := setA p.databasePaths (wrap32 (p.databaseId + 1)) dbpath })) := by
  obtain ⟨h1, _, h3, h4⟩ := openDatabase_branches fs p args dbpath c0 c1 si0 ro
    hpath hne hsplit hkey hro hsi hmem
  exact ⟨h1, fun e hmk hconn => h3 e hmk hnofind hconn,
    fun conn hmk hconn => h4 conn hmk hnofind hconn⟩

/-- Witness for C3 (amended): the keyed path "notes.db?_key=abc" opened on a
fresh registry succeeds with handle 1, recovered false, and the entry
stored. -/
theorem open_with_key_params_witness :
    handleOpenDatabase fsAllOk initPlugin
        (.mapV [("path", .strV "notes.db?_key=abc"), ("singleInstance", .boolV true)])
      = (.ok (.mapV [("id", .intV 1), ("recovered", .boolV false)]),
         ⟨[(1, 0)], [(1, "notes.db?_key=abc")], 1⟩) := by
  have hw : wrap32 (initPlugin.databaseId + 1) = 1 := by
    norm_num [wrap32, initPlugin]
  have h := (open_with_key_params fsAllOk initPlugin
    [("path", .strV "notes.db?_key=abc"), ("singleInstance", .boolV true)]
    "notes.db?_key=abc" "notes.db" "_key=abc" true false
    rfl (by decide) rfl rfl rfl rfl (by decide) (fun _ => rfl)).2.2 0 rfl rfl
  rw [hw] at h
  exact h

/-- Counterexample to C3 as stated: opening the plain path "notes.db" on a
fresh registry does not succeed with handle 1 — it is rejected with the
parameters-missing error and the state is unchanged, although the path is
non-empty, not the sentinel, and directories and connection would open
fine. -/
theorem open_plain_path_fails_cex :
    handleOpenDatabase fsAllOk initPlugin
        (.mapV [("path", .strV "notes.db"), ("singleInstance", .boolV true)])
      = (.err "db parameters are missing", initPlugin) ∧
    (handleOpenDatabase fsAllOk initPlugin
        (.mapV [("path", .strV "notes.db"), ("singleInstance", .boolV true)])).1
      ≠ .ok (.mapV [("id", .intV 1), ("recovered", .boolV false)]) := by
  refine ⟨rfl, ?_⟩
  intro h
  have h1 : GoRes.err "db parameters are missing"
      = GoRes.ok (Value.mapV [("id", .intV 1), ("recovered", .boolV false)]) := h
  cases h1

/-- C4 (amended): for a valid keyed non-sentinel path already registered,
opening with singleInstance true recovers the registered handle with
recovered true and leaves the state unchanged (no new connection, so at
most one entry per path persists); the in-memory sentinel is never matched
by the single-instance path lookup — but an open of the sentinel path
itself fails the parameter check and creates no entry rather than creating
a distinct one. -/
theorem open_single_instance_recovers
    (fs : FS) (p : SqflitePlugin) (args : List (String × Value))
    (dbpath c0 c1 : String) (ro : Bool) (i : Int)
    (hpath : lookupA args "path" = some (.strV dbpath))
    (hne : dbpath ≠ "")
    (hsplit : goSplit dbpath '?' = [c0, c1])
    (hkey : findKey (goSplit c1 '&') = true)
    (hro : boolArg args "readOnly" = .ok ro)
    (hsi : boolArg args "singleInstance" = .ok true)
    (hmem : dbpath ≠ ":memory:")
    (hmk : fs.mkdir dbpath = none)
    (hfound : getDatabaseByPath p dbpath = some i) :
    handleOpenDatabase fs p (.mapV args)
      = (.ok (.mapV [("id", .intV i), ("recovered", .boolV true)]), p) ∧
    (∀ q : SqflitePlugin, getDatabaseByPath q ":memory:" = none) := by
  refine ⟨(openDatabase_branches fs p args dbpath c0 c1 true ro
    hpath hne hsplit hkey hro hsi hmem).2.1 i hmk rfl hfound, ?_⟩
  intro q
  simp [getDatabaseByPath]

/-- Witness for C4 (amended): reopening the registered path of pOne with
singleInstance true recovers handle 1 with recovered true and an unchanged
state, and the sentinel is not matched by the lookup. -/
theorem open_single_instance_recovers_witness :
    handleOpenDatabase fsAllOk pOne
        (.mapV [("path", .strV "a.db?_key=k"), ("singleInstance", .boolV true)])
      = (.ok (.mapV [("id", .intV 1), ("recovered", .boolV true)]), pOne) ∧
    getDatabaseByPath pOne ":memory:" = none := by
  have h := open_single_instance_recovers fsAllOk pOne
    [("path", .strV "a.db?_key=k"), ("singleInstance", .boolV true)]
    "a.db?_key=k" "a.db" "_key=k" false 1
    rfl (by decide) rfl rfl rfl rfl (by decide) rfl rfl
  exact ⟨h.1, h.2 pOne⟩

/-- Counterexample to C4 as stated: an open of the in-memory sentinel path
itself does not create a distinct entry — it fails the parameter check with
an error and the registry stays empty. -/
theorem open_memory_sentinel_fails_cex :
    handleOpenDatabase fsAllOk initPlugin
        (.mapV [("path", .strV ":memory:"), ("singleInstance", .boolV true)])
      = (.err "db parameters are missing", initPlugin) ∧
    (handleOpenDatabase fsAllOk initPlugin
        (.mapV [("path", .strV ":memory:"), ("singleInstance", .boolV true)])).2.databases
      = [] := by
  exact ⟨rfl, rfl⟩

/-- C5 (amended): failures in the handlers are surfaced as native failures
— insert and update propagate the engine error, query propagates the
db.Query call error and the column-read error, closeDatabase propagates the
close error, a batch aborted by an engine error fails with it, and
openDatabase propagates directory-creation and connection-open errors —
except for three silent drops: handleExecute treats an engine error whose
message contains "already exists" as success (a failing execute reports
success exactly when its message contains that substring), and handleQuery
ignores per-row rows.Scan errors (appending a zero-valued row instead) and
never consults the cursor's final iteration error, replying success
whatever those are. -/
theorem failures_surfaced_except_already_exists
    (eng : Engine) (p : SqflitePlugin) (args : Value) (w : World)
    (s : String) (a : List Value) (msg : String) (i : Int) (db : Nat)
    (hdb : getDatabase p args = .ok (i, db))
    (hsql : getSqlCommand args = .ok (s, a)) :
    (eng.execRes s a = .error msg →
      (handleInsert eng p args w).1 = .err msg ∧
      (handleUpdate eng p args w).1 = .err msg ∧
      (handleExecute eng p args w).1 =
        (if containsSub msg "already exists" then .ok .nullV else .err msg)) ∧
    (eng.queryRes s a = .error msg → (handleQuery eng p args w).1 = .err msg) ∧
    (∀ cur, eng.queryRes s a = .ok cur → cur.colsRes = .error msg →
      (handleQuery eng p args w).1 = .err msg) ∧
    (∀ cur cols, eng.queryRes s a = .ok cur → cur.colsRes = .ok cols →
      (handleQuery eng p args w).1
        = .ok (.mapV [("columns", .listV (cols.map Value.strV)),
                      ("rows", .listV (cur.scans.map
                        (fun sc => Value.listV (marshalRow cols sc))))])) ∧
    (∀ closeRes, closeRes db = some msg →
      (handleCloseDatabase closeRes p args).1 = .err msg) ∧
    (∀ (m : List (String × Value)) ops e w1, args = .mapV m →
      lookupA m "operations" = some (.listV ops) →
      runBatchOps eng ops w = (.err e, w1) →
      (handleBatch eng p args w).1 = .err e) ∧
    (∀ (fs : FS) (margs : List (String × Value)) (dbpath c0 c1 : String)
       (si0 ro : Bool),
      lookupA margs "path" = some (.strV dbpath) → dbpath ≠ "" →
      goSplit dbpath '?' = [c0, c1] → findKey (goSplit c1 '&') = true →
      boolArg margs "readOnly" = .ok ro →
      boolArg margs "singleInstance" = .ok si0 → dbpath ≠ ":memory:" →
      (∀ e, fs.mkdir dbpath = some e →
        (handleOpenDatabase fs p (.mapV margs)).1 = .err e) ∧
      (∀ e, fs.mkdir dbpath = none →
        (si0 = true → getDatabaseByPath p dbpath = none) →
        fs.openConn dbpath = .error e →
        (handleOpenDatabase fs p (.mapV margs)).1 = .err e)) := by
  refine ⟨?_, ?_, ?_, ?_, ?_, ?_, ?_⟩
  · intro hexec
    refine ⟨by simp [handleInsert, hdb, hsql, hexec],
      by simp [handleUpdate, hdb, hsql, hexec], ?_⟩
    cases hc : containsSub msg "already exists" <;>
      simp [handleExecute, hdb, hsql, hexec, hc]
  · intro hquery
    simp [handleQuery, hdb, hsql, hquery]
  · intro cur hquery hcols
    simp [handleQuery, hdb, hsql, hquery, hcols]
  · intro cur cols hquery hcols
    simp [handleQuery, hdb, hsql, hquery, hcols]
  · intro closeRes hclose
    simp [handleCloseDatabase, hdb, hclose]
  · intro m ops e w1 hm hops hrun
    subst hm
    simp [handleBatch, hdb, hops, hrun]
  · intro fs margs dbpath c0 c1 si0 ro hpath hne hsplit hkey hro hsi hmem
    obtain ⟨b1, _, b3, _⟩ := openDatabase_branches fs p margs dbpath c0 c1 si0 ro
      hpath hne hsplit hkey hro hsi hmem
    exact ⟨fun e hmk => by rw [b1 e hmk],
      fun e hmk hnf hconn => by rw [b3 e hmk hnf hconn]⟩

/-- Witness for C5 (amended): over handle 1, insert, update and execute
surface the engine error "boom"; an execute failing with an
"already exists" message reports success; and a query whose single row
fails rows.Scan and whose iteration ends in error still replies success
with a zero-valued (null) row. -/
theorem failures_surfaced_except_already_exists_witness :
    (handleInsert engBad pOne (sqlArgs "BAD") []).1 = .err "boom" ∧
    (handleUpdate engBad pOne (sqlArgs "BAD") []).1 = .err "boom" ∧
    (handleExecute engBad pOne (sqlArgs "BAD") []).1 = .err "boom" ∧
    (handleExecute engAlreadyExists pOne (sqlArgs "CREATE TABLE t") []).1
      = .ok .nullV ∧
    (handleQuery engScanFail pOne (sqlArgs "SELECT x") []).1
      = .ok (.mapV [("columns", .listV [.strV "v"]),
                    ("rows", .listV [.listV [.nullV]])]) := by
  have h := (failures_surfaced_except_already_exists engBad pOne (sqlArgs "BAD") []
    "BAD" [] "boom" 1 0 rfl rfl).1 rfl
  have h2 := (failures_surfaced_except_already_exists engAlreadyExists pOne
    (sqlArgs "CREATE TABLE t") [] "CREATE TABLE t" [] "table t already exists"
    1 0 rfl rfl).1 rfl
  have h3 := (failures_surfaced_except_already_exists engScanFail pOne
    (sqlArgs "SELECT x") [] "SELECT x" [] "m" 1 0 rfl rfl).2.2.2.1
    ⟨.ok ["v"], [.error "scan failed"], some "iteration failed"⟩ ["v"] rfl rfl
  exact ⟨h.1, h.2.1, h.2.2, h2.2.2, h3⟩

/-- Counterexample to C5 as stated: a failing execute call can report
success — the engine rejects the statement with an "already exists" error,
yet handleExecute replies nil with no failure, silently dropping the
engine error. -/
theorem execute_swallows_already_exists_cex :
    engAlreadyExists.execRes "CREATE TABLE t" [] = .error "table t already exists" ∧
    (handleExecute engAlreadyExists pOne (sqlArgs "CREATE TABLE t") []).1
      = .ok .nullV ∧
    (handleExecute engAlreadyExists pOne (sqlArgs "CREATE TABLE t") []).1
      ≠ .err "table t already exists" := by
  refine ⟨rfl, rfl, ?_⟩
  intro h
  have h1 : GoRes.ok Value.nullV = GoRes.err "table t already exists" := by
    rw [show (handleExecute engAlreadyExists pOne (sqlArgs "CREATE TABLE t") []).1
      = GoRes.ok Value.nullV from rfl] at h
    exact h
  cases h1

/-- C9: a successful query replies with the generic columns/rows structure
in which the column list and the rows appear exactly in engine order (a
map over the cursor, hence no sorting, deduplication or filtering), null
values pass through as null, blob values are coerced to the string of
their bytes and every other scalar is unchanged. -/
theorem query_marshal_preserves_order
    (eng : Engine) (p : SqflitePlugin) (args : Value) (w : World)
    (s : String) (a : List Value) (cur : Cursor) (i : Int) (db : Nat)
    (cols : List String) (rows : List (List Value))
    (hdb : getDatabase p args = .ok (i, db))
    (hsql : getSqlCommand args = .ok (s, a))
    (hq : eng.queryRes s a = .ok cur)
    (hcols : cur.colsRes = .ok cols)
    (hscans : cur.scans = rows.map Except.ok) :
    (handleQuery eng p args w).1
      = .ok (.mapV [("columns", .listV (cols.map Value.strV)),
                    ("rows", .listV (rows.map (fun r => .listV (r.map coerceValue))))]) ∧
    coerceValue .nullV = .nullV ∧
    (∀ cs, coerceValue (.bytesV cs) = .strV (String.mk cs)) ∧
    (∀ v, (∀ cs, v ≠ .bytesV cs) → coerceValue v = v) := by
  refine ⟨by simp [handleQuery, hdb, hsql, hq, hcols, hscans, List.map_map,
    Function.comp, marshalRow], rfl, fun cs => rfl, ?_⟩
  intro v hv
  cases v <;> first | rfl | exact absurd rfl (hv _)

/-- Witness for C9: querying the sample cursor returns its one row in order
with the integer unchanged, the null preserved and the blob rendered as the
string "hi". -/
theorem query_marshal_preserves_order_witness :
    (handleQuery engQuery pOne (sqlArgs "SELECT * FROM t") []).1
      = .ok (.mapV [("columns", .listV [.strV "v", .strV "n", .strV "b"]),
                    ("rows", .listV [.listV [.intV 42, .nullV, .strV "hi"]])]) := by
  exact (query_marshal_preserves_order engQuery pOne (sqlArgs "SELECT * FROM t") []
    "SELECT * FROM t" [] curSample 1 0 ["v", "n", "b"]
    [[.intV 42, .nullV, .bytesV ['h', 'i']]] rfl rfl rfl rfl rfl).1

/-- Every openDatabase call either leaves the handle counter unchanged and
allocates nothing, or allocates exactly the bumped counter value. -/
theorem open_alloc_or_stable (fs : FS) (p : SqflitePlugin) (args : Value) :
    (allocOf (handleOpenDatabase fs p args).1 = none ∧
     (handleOpenDatabase fs p args).2.databaseId = p.databaseId) ∨
    (allocOf (handleOpenDatabase fs p args).1 = some (wrap32 (p.databaseId + 1)) ∧
     (handleOpenDatabase fs p args).2.databaseId = wrap32 (p.databaseId + 1)) := by
  unfold handleOpenDatabase
  repeat' split
  all_goals first
    | exact Or.inl ⟨rfl, rfl⟩
    | exact Or.inr ⟨rfl, rfl⟩

/-- closeDatabase never allocates and never changes the handle counter. -/
theorem close_alloc_none (closeRes : Nat → Option String) (p : SqflitePlugin)
    (args : Value) :
    allocOf (handleCloseDatabase closeRes p args).1 = none ∧
    (handleCloseDatabase closeRes p args).2.databaseId = p.databaseId := by
  unfold handleCloseDatabase
  repeat' split
  all_goals exact ⟨rfl, rfl⟩

/-- Combined step characterization over both registry calls. -/
theorem stepCall_alloc (p : SqflitePlugin) (c : RegCall) :
    (allocOf (stepCall p c).1 = none ∧ (stepCall p c).2.databaseId = p.databaseId) ∨
    (allocOf (stepCall p c).1 = some (wrap32 (p.databaseId + 1)) ∧
     (stepCall p c).2.databaseId = wrap32 (p.databaseId + 1)) := by
  cases c with
  | copen fs args => exact open_alloc_or_stable fs p args
  | cclose closeRes args => exact Or.inl (close_alloc_none closeRes p args)

/-- As long as the counter cannot overflow, the handles allocated along any
call sequence are exactly the consecutive integers starting right above the
initial counter value. -/
theorem runCalls_allocs_get (cs : List RegCall) (p : SqflitePlugin)
    (h0 : 0 ≤ p.databaseId)
    (hbound : p.databaseId + ((runCalls p cs).2.length : Int) ≤ 2 ^ 31 - 1) :
    ∀ (i : Nat) (hi : i < (runCalls p cs).2.length),
      (runCalls p cs).2.get ⟨i, hi⟩ = p.databaseId + 1 + (i : Int) := by
  induction cs generalizing p with
  | nil => intro i hi; cases hi
  | cons c rest ih =>
    rcases stepCall_alloc p c with ⟨ha, hd⟩ | ⟨ha, hd⟩
    · have hlist : (runCalls p (c :: rest)).2 = (runCalls (stepCall p c).2 rest).2 := by
        simp [runCalls, ha]
      rw [hlist] at hbound
      have hbound' : (stepCall p c).2.databaseId
          + ((runCalls (stepCall p c).2 rest).2.length : Int) ≤ 2 ^ 31 - 1 := by
        rw [hd]; exact hbound
      intro i hi
      have hi' : i < (runCalls (stepCall p c).2 rest).2.length := by
        rw [hlist] at hi; exact hi
      have h := ih (stepCall p c).2 (by rw [hd]; exact h0) hbound' i hi'
      rw [List.get_of_eq hlist ⟨i, hi⟩]
      rw [hd] at h
      exact h
    · have hlist : (runCalls p (c :: rest)).2
          = wrap32 (p.databaseId + 1) :: (runCalls (stepCall p c).2 rest).2 := by
        simp [runCalls, ha]
      rw [hlist, List.length_cons] at hbound
      have hwrap : wrap32 (p.databaseId + 1) = p.databaseId + 1 := by
        apply wrap32_eq_of_bounds <;> push_cast at hbound <;> omega
      have h0' : 0 ≤ (stepCall p c).2.databaseId := by
        rw [hd, hwrap]; omega
      have hb' : (stepCall p c).2.databaseId
          + ((runCalls (stepCall p c).2 rest).2.length : Int) ≤ 2 ^ 31 - 1 := by
        rw [hd, hwrap]; push_cast at hbound ⊢; omega
      intro i hi
      have hi' : i < (runCalls (stepCall p c).2 rest).2.length + 1 := by
        rw [hlist, List.length_cons] at hi; exact hi
      rw [List.get_of_eq hlist ⟨i, hi⟩]
      match i, hi' with
      | 0, _ =>
        show wrap32 (p.databaseId + 1) = p.databaseId + 1 + ((0 : Nat) : Int)
        rw [hwrap]; push_cast; ring
      | j + 1, hj1 =>
        have hj : j < (runCalls (stepCall p c).2 rest).2.length :=
          Nat.lt_of_succ_lt_succ hj1
        have h := ih (stepCall p c).2 h0' hb' j hj
        show (runCalls (stepCall p c).2 rest).2.get ⟨j, hj⟩
          = p.databaseId + 1 + ((j + 1 : Nat) : Int)
        rw [h, hd, hwrap]
        push_cast
        ring

/-- C7 (amended): for every sequence of open and close calls from a fresh
state in which the number of entry-creating opens stays within the int32
range (at most 2^31 - 1), every handle allocated by a creating open is
strictly greater than every previously allocated handle, and no handle
value is ever allocated twice; once the counter exceeds that range it
wraps and the guarantee is lost. -/
theorem handles_monotone_below_wrap (cs : List RegCall)
    (hbound : ((runCalls initPlugin cs).2.length : Int) ≤ 2 ^ 31 - 1) :
    List.Pairwise (fun a b : Int => a < b) (runCalls initPlugin cs).2 ∧
    (runCalls initPlugin cs).2.Nodup := by
  have hg := runCalls_allocs_get cs initPlugin (by norm_num [initPlugin])
    (by simpa [initPlugin] using hbound)
  have hp : List.Pairwise (fun a b : Int => a < b) (runCalls initPlugin cs).2 := by
    rw [List.pairwise_iff_get]
    intro i j hij
    rw [hg i.1 i.2, hg j.1 j.2]
    have hv : (i : Nat) < (j : Nat) := hij
    have : ((i : Nat) : Int) < ((j : Nat) : Int) := by exact_mod_cast hv
    omega
  exact ⟨hp, hp.imp fun h => ne_of_lt h⟩

/-- Witness for C7 (amended): two creating opens from a fresh state allocate
handles 1 and 2, a strictly increasing, duplicate-free sequence. -/
theorem handles_monotone_below_wrap_witness :
    ((runCalls initPlugin [goodOpen, goodOpen]).2.length : Int) ≤ 2 ^ 31 - 1 ∧
    List.Pairwise (fun a b : Int => a < b)
      (runCalls initPlugin [goodOpen, goodOpen]).2 ∧
    (runCalls initPlugin [goodOpen, goodOpen]).2 = [1, 2] := by
  have hlen : ((runCalls initPlugin [goodOpen, goodOpen]).2.length : Int)
      ≤ 2 ^ 31 - 1 := by
    rw [show (runCalls initPlugin [goodOpen, goodOpen]).2.length = 2 from rfl]
    norm_num
  exact ⟨hlen, (handles_monotone_below_wrap [goodOpen, goodOpen] hlen).1, rfl⟩

/-- Every goodOpen call creates a fresh entry and bumps the counter. -/
theorem goodOpen_step (p : SqflitePlugin) :
    stepCall p goodOpen
      = (.ok (.mapV [("id", .intV (wrap32 (p.databaseId + 1))),
                     ("recovered", .boolV false)]),
         { p with
           databaseId := wrap32 (p.databaseId + 1),
           databases := setA p.databases (wrap32 (p.databaseId + 1)) 0,
           databasePaths := setA p.databasePaths (wrap32 (p.databaseId + 1))
             "a.db?_key=k" }) := by
  exact (openDatabase_branches fsAllOk p [("path", .strV "a.db?_key=k")]
    "a.db?_key=k" "a.db" "_key=k" false false rfl (by decide) rfl rfl rfl rfl
    (by decide)).2.2.2 0 rfl (fun h => nomatch h) rfl

/-- The allocations of n consecutive goodOpen calls are the wrapped
successive counter values. -/
theorem wrap32_shift (d : Int) (k : Nat) :
    wrap32 (wrap32 (d + 1) + 1 + (k : Int)) = wrap32 (d + 1 + ((k + 1 : Nat) : Int)) := by
  have h1 : wrap32 (d + 1) + 1 + (k : Int) = wrap32 (d + 1) + (1 + k) := by ring
  rw [h1, wrap32_add_left]
  congr 1
  push_cast
  ring

/-- The allocations of n consecutive goodOpen calls are the wrapped
successive counter values. -/
theorem runCalls_replicate_goodOpen (n : Nat) : ∀ (p : SqflitePlugin),
    (runCalls p (List.replicate n goodOpen)).2
      = (List.range n).map (fun k : Nat => wrap32 (p.databaseId + 1 + (k : Int))) := by
  induction n with
  | zero => intro p; rfl
  | succ m ih =>
    intro p
    rw [List.replicate_succ]
    show (runCalls p (goodOpen :: List.replicate m goodOpen)).2 = _
    simp only [runCalls, goodOpen_step, allocOf, Option.toList]
    rw [ih]
    rw [List.range_succ_eq_map, List.map_cons, List.map_map, List.singleton_append]
    congr 1
    · first
      | rfl
      | (congr 1; push_cast; ring)
    · refine List.map_congr_left fun k hk => ?_
      simpa [Function.comp] using wrap32_shift p.databaseId k

/-- Counterexample to C7 as stated: after 2^31 successful entry-creating
opens from a fresh state the int32 counter wraps, so the last allocated
handle (-2^31) is smaller than the first one (1): the allocation sequence
of this call trace is not strictly increasing, refuting unbounded
monotonicity. -/
theorem handle_counter_overflow_cex :
    ¬ List.Pairwise (fun a b : Int => a < b)
        (runCalls initPlugin (List.replicate (2 ^ 31) goodOpen)).2 := by
  intro hp
  rw [runCalls_replicate_goodOpen, List.pairwise_map, List.pairwise_iff_get] at hp
  have key := hp ⟨0, by rw [List.length_range]; norm_num⟩
    ⟨2 ^ 31 - 1, by rw [List.length_range]; norm_num⟩
    (by rw [Fin.lt_def]; norm_num)
  rw [List.get_range, List.get_range] at key
  have e1 : wrap32 (initPlugin.databaseId + 1 + ((0 : Nat) : Int)) = 1 := by
    norm_num [initPlugin, wrap32]
  have e2 : wrap32 (initPlugin.databaseId + 1 + (((2 ^ 31 - 1 : Nat)) : Int))
      = -(2 ^ 31) := by
    norm_num [initPlugin, wrap32]
  rw [e1, e2] at key
  norm_num at key
